import Mathlib

/-!
Shallow embedding of the MT4 Expander context-management core
(src/src/context.cpp, declarations in src/header/Expander.h).

Pointers are modelled as natural numbers (0 = NULL); the Win32 `uint`/`int`
casts that matter are made explicit via `toInt32`.  A context chain is a list
of optional records (a `none` slot is a NULL pointer in the chain), the
registry is a list of chains indexed by program id (index 0 is the permanent
sentinel).  Fallible operations return `Except Err _`.
-/

/-- ProgramType (header/Expander.h): PT_INDICATOR, PT_EXPERT, PT_SCRIPT. -/
inductive ProgramType where
  | indicator
  | expert
  | script
deriving DecidableEq

/-- ModuleType (header/Expander.h): MT_INDICATOR, MT_EXPERT, MT_SCRIPT, MT_LIBRARY. -/
inductive ModuleType where
  | indicator
  | expert
  | script
  | library
deriving DecidableEq

/-- RootFunction (header/Expander.h): RF_INIT, RF_START, RF_DEINIT.  The C code
uses the NULL value for "no root function"; we model that as `Option.none` at
use sites. -/
inductive RootFunction where
  | init
  | start
  | deinit
deriving DecidableEq

/-- InitializeReason (header/Expander.h): IR_USER, IR_TEMPLATE, IR_PROGRAM,
IR_PROGRAM_AFTERTEST, IR_PARAMETERS, IR_TIMEFRAMECHANGE, IR_SYMBOLCHANGE,
IR_RECOMPILE. -/
inductive InitializeReason where
  | user
  | template
  | program
  | programAfterTest
  | parameters
  | timeframeChange
  | symbolChange
  | recompile
deriving DecidableEq

/-- UninitializeReason (header/Expander.h): UR_UNDEFINED, UR_REMOVE,
UR_RECOMPILE, UR_CHARTCHANGE, UR_CHARTCLOSE, UR_PARAMETERS, UR_ACCOUNT,
UR_TEMPLATE, UR_INITFAILED, UR_CLOSE. -/
inductive UninitReason where
  | undefined
  | remove
  | recompile
  | chartChange
  | chartClose
  | parameters
  | account
  | template
  | initFailed
  | close
deriving DecidableEq

/-- Error taxonomy of the reported failures: ERR_INVALID_PARAMETER,
ERR_ILLEGAL_STATE, ERR_RUNTIME_ERROR. -/
inductive Err where
  | invalidParameter
  | illegalState
  | runtimeError
deriving DecidableEq

/-- The fields of a super context (EXECUTION_CONTEXT* sec) that context.cpp
reads through the pointer: testing, visualMode, optimization, logging,
customLogFile, hChart. -/
structure SuperContext where
  testing : Bool
  visualMode : Bool
  optimization : Bool
  logging : Bool
  customLogFile : Option String
  hChart : Nat
deriving DecidableEq

/-- EXECUTION_CONTEXT: the fields of the struct that the functions verified
here read or write.  `rootFunction = none` is the C NULL value ("in limbo"),
`customLogFile = none` is a NULL char pointer, `superContext = none` a NULL
super-context pointer, `hChart = 0` / `hChartWindow = 0` NULL handles. -/
structure EC where
  programId : Nat
  programType : ProgramType
  moduleType : ModuleType
  programName : String
  moduleName : String
  rootFunction : Option RootFunction
  uninitReason : UninitReason
  testing : Bool
  visualMode : Bool
  optimization : Bool
  logging : Bool
  customLogFile : Option String
  superContext : Option SuperContext
  hChart : Nat
  hChartWindow : Nat
  threadId : Nat
  ticks : Nat
  initCycle : Bool
  symbol : String
deriving DecidableEq

/-- Default record used for total list indexing (out-of-range access in the
C code is undefined; theorems carry the bounds). -/
def defaultEC : EC :=
  { programId := 0, programType := .indicator, moduleType := .indicator,
    programName := "", moduleName := "", rootFunction := none,
    uninitReason := .undefined, testing := false, visualMode := false,
    optimization := false, logging := false, customLogFile := none,
    superContext := none, hChart := 0, hChartWindow := 0, threadId := 0,
    ticks := 0, initCycle := false, symbol := "" }

/-- A context chain: list of EXECUTION_CONTEXT pointers, `none` = NULL slot.
Slot 0 is the master record, slot 1 the main record, slots 2.. libraries. -/
abbrev ContextChain := List (Option EC)

/-- MIN_VALID_POINTER: the minimum address accepted as a valid pointer. -/
def minValidPointer : Nat := 65536

/-- Reinterpret a 32-bit unsigned value as signed, as the C casts
`(int)programId` do. -/
def toInt32 (n : Nat) : Int :=
  if n % 4294967296 < 2147483648 then ((n % 4294967296 : Nat) : Int)
  else ((n % 4294967296 : Nat) : Int) - 4294967296

/-- The thread/program tracker state: g_threads, g_threadsPrograms (parallel
arrays) and g_lastUIThreadProgram. -/
structure ThreadMaps where
  threads : List Nat
  threadsPrograms : List Nat
  lastUIThreadProgram : Nat
deriving DecidableEq

/-- StoreThreadAndProgram (context.cpp:1064-1094).  Marks `programId` as
executed by `currentThread`.  Returns the thread's index in g_threads and the
updated maps; a negative (as int) program id is rejected with
ERR_INVALID_PARAMETER and the maps are left unchanged. -/
def StoreThreadAndProgram (programId : Nat) (currentThread : Nat)
    (isUIThread : Bool) (s : ThreadMaps) : Except Err Nat × ThreadMaps :=
  if toInt32 programId < 0 then (.error .invalidParameter, s)
  else
    let step1 : Nat × ThreadMaps :=
      match s.threads.findIdx? (· == currentThread) with
      | some i =>
          -- current thread found: update its last program if non-zero
          if programId ≠ 0 then
            (i, { s with threadsPrograms := s.threadsPrograms.set i programId })
          else (i, s)
      | none =>
          -- current thread not found: append thread and program (or zero)
          (s.threads.length,
           { s with threads := s.threads ++ [currentThread],
                    threadsPrograms := s.threadsPrograms ++ [programId] })
    let s1 := step1.2
    -- additionally store the program in g_lastUIThreadProgram on the UI thread
    if programId ≠ 0 ∧ isUIThread = true then
      (.ok step1.1, { s1 with lastUIThreadProgram := programId })
    else (.ok step1.1, s1)

/-- Result of LeaveContext: the record's new root function, the new value of
the chain's slot 1, and the C return value. -/
structure LeaveResult where
  newRootFunction : Option RootFunction
  newSlot1 : Option Nat
  ret : Bool
deriving DecidableEq

/-- LeaveContext (context.cpp:493-529).  `ecPtr` is the address of `ec`,
`slot1` the current pointer stored in g_contextChains[ec.programId][1].
Indicator/Script: require identity with slot 1, clear root function and the
slot.  Expert: same identity check, clear root function, clear the slot unless
the uninit reason is UR_CHARTCHANGE, UR_PARAMETERS or UR_ACCOUNT.  Library:
clear root function only and return FALSE. -/
def LeaveContext (ec : EC) (ecPtr : Nat) (slot1 : Option Nat) :
    Except Err LeaveResult :=
  if ecPtr < minValidPointer then .error .invalidParameter
  else if toInt32 ec.programId < 1 then .error .invalidParameter
  else if ec.rootFunction ≠ some .deinit then .error .invalidParameter
  else
    match ec.moduleType with
    | .indicator | .script =>
        if slot1 ≠ some ecPtr then .error .illegalState
        else .ok ⟨none, none, true⟩
    | .expert =>
        if slot1 ≠ some ecPtr then .error .illegalState
        else if ec.uninitReason ≠ .chartChange ∧ ec.uninitReason ≠ .parameters
                ∧ ec.uninitReason ≠ .account then
          .ok ⟨none, none, true⟩
        else .ok ⟨none, slot1, true⟩
    | .library => .ok ⟨none, slot1, false⟩

/-- The match predicate of FindIndicatorInLimbo (context.cpp:458-463): the
master record runs on the UI thread, has the given chart handle, is an
indicator, has the given program name and uninit reason, and its root
function is NULL. -/
def limboMatch (m : EC) (hChart : Nat) (name : String) (reason : UninitReason)
    (uiThreadId : Nat) : Bool :=
  decide (m.threadId = uiThreadId) && decide (m.hChart = hChart) &&
  decide (m.programType = .indicator) && decide (m.programName = name) &&
  decide (m.uninitReason = reason) && decide (m.rootFunction = none)

/-- The scan loop of FindIndicatorInLimbo over the master records from index 1
upward: return the first matching master's program id, or 0. -/
def limboScan (ms : List EC) (hChart : Nat) (name : String)
    (reason : UninitReason) (uiThreadId : Nat) : Nat :=
  match ms with
  | [] => 0
  | m :: rest =>
      if limboMatch m hChart name reason uiThreadId then m.programId
      else limboScan rest hChart name reason uiThreadId

/-- FindIndicatorInLimbo (context.cpp:450-483).  `masters` is the list of the
chains' slot-0 records indexed by program id (index 0 is the sentinel and is
skipped).  With a NULL chart handle no chain is examined and 0 (no indicator
found) is returned. -/
def FindIndicatorInLimbo (masters : List EC) (hChart : Nat) (name : String)
    (reason : UninitReason) (uiThreadId : Nat) : Nat :=
  if hChart ≠ 0 then limboScan (masters.drop 1) hChart name reason uiThreadId
  else 0

/-- InitReason_indicator (context.cpp:706-829).  Arguments mirror the C
signature; `build` is GetTerminalBuild(), `isUIThread` IsUIThread(),
`masters` the registry's master records (index = program id), `uiThreadId`
GetUIThreadId().  Returns the resolved init reason together with the
`originalProgramId` out-parameter (0 = not set). -/
def InitReason_indicator (ecProgramId : Nat) (sec : Option SuperContext)
    (programName : String) (uninitReason : UninitReason) (symbol : String)
    (isTesting isVisualMode : Bool) (hChart : Nat) (droppedOnChart : Int)
    (build : Nat) (isUIThread : Bool) (masters : List EC) (uiThreadId : Nat) :
    Except Err (InitializeReason × Nat) :=
  match uninitReason with
  | .parameters =>
      -- (1) UR_PARAMETERS: never inside iCustom()
      if sec.isSome then .error .illegalState
      else if ecProgramId ≠ 0 then
        if (masters.getD ecProgramId defaultEC).ticks = 0 then .ok (.user, 0)
        else .ok (.parameters, 0)
      else
        let pid := FindIndicatorInLimbo masters hChart programName uninitReason uiThreadId
        if pid = 0 then .ok (.user, pid) else .ok (.parameters, pid)
  | .chartChange =>
      -- (2) UR_CHARTCHANGE: never inside iCustom()
      if sec.isSome then .error .illegalState
      else if ecProgramId = 0 then
        let pid := FindIndicatorInLimbo masters hChart programName uninitReason uiThreadId
        if pid = 0 then .error .runtimeError
        else if (masters.getD pid defaultEC).symbol = symbol then .ok (.timeframeChange, pid)
        else .ok (.symbolChange, pid)
      else
        if (masters.getD ecProgramId defaultEC).symbol = symbol then .ok (.timeframeChange, 0)
        else .ok (.symbolChange, 0)
  | .undefined =>
      -- (3) UR_UNDEFINED
      match sec with
      | none =>
          if build < 654 then .ok (.template, 0)
          else if droppedOnChart ≥ 0 then .ok (.template, 0)
          else .ok (.user, 0)
      | some _ =>
          if isTesting = true ∧ isVisualMode = false ∧ isUIThread = true then
            if build ≤ 229 then .ok (.programAfterTest, 0)
            else .error .illegalState
          else .ok (.program, 0)
  | .remove =>
      -- (4) UR_REMOVE: only inside iCustom()
      if sec.isNone then .error .illegalState
      else if isTesting = false ∨ isUIThread = false then .error .illegalState
      else if isVisualMode = false then
        if 388 ≤ build ∧ build ≤ 628 then .ok (.programAfterTest, 0)
        else .error .illegalState
      else
        if 578 ≤ build ∧ build ≤ 628 then .ok (.programAfterTest, 0)
        else .error .illegalState
  | .recompile =>
      -- (5) UR_RECOMPILE: never inside iCustom()
      if sec.isSome then .error .illegalState
      else .ok (.recompile, 0)
  | .chartClose =>
      -- (6) UR_CHARTCLOSE: only inside iCustom()
      if sec.isNone then .error .illegalState
      else if isTesting = false ∨ isUIThread = false then .error .illegalState
      else if 633 ≤ build then .ok (.programAfterTest, 0)
      else .error .illegalState
  | .account => .error .illegalState
  | .template => .error .illegalState
  | .initFailed => .error .illegalState
  | .close => .error .illegalState

/-- External window collaborator: the title text of a window handle, the
value observed through GetWindowTextLength()/GetWindowText(). -/
structure WinEnv where
  windowText : Nat → String

/-- ProgramIsTesting (context.cpp:922-971).  A super context's testing status
is preferred; otherwise the status is derived per program type (indicators and
scripts consult the chart window's title, experts trust the host flag). -/
def ProgramIsTesting (env : WinEnv) (ec : EC) (isTesting : Bool) :
    Except Err Bool :=
  match ec.superContext with
  | some sc => .ok sc.testing
  | none =>
    match ec.programType with
    | .indicator =>
        if isTesting then .ok true
        else if ec.hChartWindow = 0 then .ok true
        else if (env.windowText ec.hChartWindow).length = 0 then .ok false
        else .ok ((env.windowText ec.hChartWindow).endsWith "(visual)")
    | .expert => .ok isTesting
    | .script =>
        if ec.hChartWindow ≠ 0 then
          .ok ((env.windowText ec.hChartWindow).endsWith "(visual)")
        else .error .illegalState

/-- ProgramIsVisualMode (context.cpp:982-992).  A super context's visualMode
is preferred; otherwise derived per program type. -/
def ProgramIsVisualMode (ec : EC) (isVisualMode : Bool) : Bool :=
  match ec.superContext with
  | some sc => sc.visualMode
  | none =>
    match ec.programType with
    | .indicator => ec.testing && decide (ec.hChart ≠ 0)
    | .expert => isVisualMode
    | .script => ec.testing

/-- ProgramIsOptimization (context.cpp:1003-1013).  A super context's
optimization status is preferred; otherwise the host flag is used for all
program types. -/
def ProgramIsOptimization (ec : EC) (isOptimization : Bool) : Bool :=
  match ec.superContext with
  | some sc => sc.optimization
  | none => isOptimization

/-- ProgramIsLogging (context.cpp:1023-1033).  A super context's logging
status is preferred; otherwise TRUE for all program types. -/
def ProgramIsLogging (ec : EC) : Bool :=
  match ec.superContext with
  | some sc => sc.logging
  | none => true

/-- ProgramCustomLogFile (context.cpp:1043-1054).  A super context's custom
log file is preferred; otherwise NULL for all program types. -/
def ProgramCustomLogFile (ec : EC) : Option String :=
  match ec.superContext with
  | some sc => sc.customLogFile
  | none => none

/-- Chain creation of SyncMainContext_init, branch 1.2 (context.cpp:138-156):
allocate a master as a copy of the main record, push the chain [master, main],
assign the new chain's index (the registry size after the push minus one) to
both records as program id.  Returns the new registry and the new id. -/
def createChain (chains : List ContextChain) (ec : EC) : List ContextChain × Nat :=
  let newId := chains.length        -- size after push_back minus one
  let master : EC := { ec with programId := newId }
  let mainEc : EC := { ec with programId := newId }
  (chains ++ [[some master, some mainEc]], newId)

/-- Iterated chain creation: the registries and ids produced by a sequence of
main-module initialize calls that each create a new chain. -/
def runCreates (chains : List ContextChain) (ecs : List EC) :
    List ContextChain × List Nat :=
  match ecs with
  | [] => (chains, [])
  | e :: rest =>
      let r := createChain chains e
      let r2 := runCreates r.1 rest
      (r2.1, r.2 :: r2.2)

/-- Field rewrite applied to a reattached library record
(context.cpp:215-222): program id, init-cycle marker, derived flags and
display handles are taken from the new main record. -/
def rewriteLib (u : EC) (lib : EC) : EC :=
  { lib with programId := u.programId, initCycle := false,
             visualMode := u.visualMode, optimization := u.optimization,
             logging := u.logging, customLogFile := u.customLogFile,
             hChart := u.hChart, hChartWindow := u.hChartWindow }

/-- The reattachment loop of SyncMainContext_init step 3
(context.cpp:206-226) over the old chain's slots from index 2 upward: a NULL
slot is skipped with a warning, a slot marked mid-init-cycle is cleared and
its rewritten record collected for appending to the new chain, any other slot
is left as is.  Returns the old slots and the records to append. -/
def reattachLibs (u : EC) : List (Option EC) → List (Option EC) × List EC
  | [] => ([], [])
  | none :: rest =>
      -- warn(ERR_ILLEGAL_STATE, ...) and continue
      let r := reattachLibs u rest
      (none :: r.1, r.2)
  | some lib :: rest =>
      if lib.initCycle then
        let r := reattachLibs u rest
        (none :: r.1, rewriteLib u lib :: r.2)
      else
        let r := reattachLibs u rest
        (some lib :: r.1, r.2)

/-- SyncMainContext_init step 3 (context.cpp:197-229): if a brand-new Expert
runs under test and the current thread's previous program is known, and that
previous chain's master is marked mid-init-cycle, move the previous chain's
mid-init-cycle libraries to the current chain and clear the old master's
marker.  Returns the new current chain, the new previous chain, and the
success status (TRUE; warnings do not abort). -/
def syncInit_step3 (isNewExpert isTesting : Bool) (lastProgramId : Nat)
    (ec : EC) (currentChain lastChain : ContextChain) :
    ContextChain × ContextChain × Bool :=
  if isNewExpert = true ∧ isTesting = true ∧ lastProgramId ≠ 0 then
    match lastChain with
    | some lastMaster :: tail =>
        if lastMaster.initCycle then
          let r := reattachLibs ec (tail.drop 1)     -- slots from index 2
          (currentChain ++ r.2.map some,
           some { lastMaster with initCycle := false } :: (tail.take 1 ++ r.1),
           true)
        else (currentChain, lastChain, true)
    | _ => (currentChain, lastChain, true)
  else (currentChain, lastChain, true)

/-! ### Helper lemmas -/

/-- The limbo scan loop returns the program id of the first matching master. -/
theorem limboScan_first (hChart : Nat) (name : String) (reason : UninitReason)
    (uiThreadId : Nat) :
    ∀ (ms : List EC) (k : Nat), k < ms.length →
      limboMatch (ms.getD k defaultEC) hChart name reason uiThreadId = true →
      (∀ j, j < k → limboMatch (ms.getD j defaultEC) hChart name reason uiThreadId = false) →
      limboScan ms hChart name reason uiThreadId = (ms.getD k defaultEC).programId := by
  intro ms
  induction ms with
  | nil => intro k hk; simp at hk
  | cons m rest ih =>
      intro k hk hmatch hbefore
      match k with
      | 0 =>
          have hm : limboMatch m hChart name reason uiThreadId = true := by
            simpa using hmatch
          simp [limboScan, hm]
      | k + 1 =>
          have h0 : limboMatch m hChart name reason uiThreadId = false := by
            have := hbefore 0 (Nat.succ_pos k)
            simpa using this
          simp only [limboScan, h0]
          simp only [Bool.false_eq_true, if_false]
          have := ih k (by simpa using hk) (by simpa using hmatch)
            (fun j hj => by simpa using hbefore (j + 1) (Nat.succ_lt_succ hj))
          simpa using this

/-- The limbo scan loop returns 0 when no master matches. -/
theorem limboScan_nomatch (hChart : Nat) (name : String) (reason : UninitReason)
    (uiThreadId : Nat) :
    ∀ ms : List EC,
      (∀ j, j < ms.length → limboMatch (ms.getD j defaultEC) hChart name reason uiThreadId = false) →
      limboScan ms hChart name reason uiThreadId = 0 := by
  intro ms
  induction ms with
  | nil => intro _; rfl
  | cons m rest ih =>
      intro h
      have h0 : limboMatch m hChart name reason uiThreadId = false := by
        simpa using h 0 (Nat.succ_pos _)
      simp only [limboScan, h0, Bool.false_eq_true, if_false]
      exact ih fun j hj => by simpa using h (j + 1) (Nat.succ_lt_succ hj)

/-- The ids produced by iterated chain creation are the consecutive indices
starting at the initial registry size. -/
theorem runCreates_snd (ecs : List EC) :
    ∀ chains : List ContextChain,
      (runCreates chains ecs).2 = List.range' chains.length ecs.length := by
  induction ecs with
  | nil => intro chains; rfl
  | cons e rest ih =>
      intro chains
      simp only [runCreates, createChain, List.range']
      rw [ih]
      simp [List.length_append]

/-- Strict ordering of a consecutive range. -/
theorem pairwise_lt_range (s n : Nat) :
    List.Pairwise (· < ·) (List.range' s n) := by
  induction n generalizing s with
  | zero => exact List.Pairwise.nil
  | succ k ih =>
      refine List.Pairwise.cons ?_ (ih (s + 1))
      intro m hm
      have := List.mem_range'_1.mp hm
      omega

/-- A NULL library slot survives the reattachment loop as NULL. -/
theorem reattachLibs_none_slot (u : EC) :
    ∀ (libs : List (Option EC)) (i : Nat),
      libs[i]? = some none → (reattachLibs u libs).1[i]? = some none := by
  intro libs
  induction libs with
  | nil => intro i h; simp at h
  | cons s rest ih =>
      intro i h
      match s, i with
      | none, 0 => simp [reattachLibs]
      | none, i + 1 =>
          simp only [reattachLibs]
          simpa using ih i (by simpa using h)
      | some lib, 0 => simp at h
      | some lib, i + 1 =>
          simp only [reattachLibs]
          by_cases hc : lib.initCycle <;>
            simp only [hc, if_true, if_false, Bool.false_eq_true] <;>
            simpa using ih i (by simpa using h)

/-- A mid-init-cycle library slot is cleared by the reattachment loop. -/
theorem reattachLibs_clear_slot (u : EC) :
    ∀ (libs : List (Option EC)) (i : Nat) (lib : EC),
      libs[i]? = some (some lib) → lib.initCycle = true →
      (reattachLibs u libs).1[i]? = some none := by
  intro libs
  induction libs with
  | nil => intro i lib h; simp at h
  | cons s rest ih =>
      intro i lib h hic
      match s, i with
      | none, 0 => simp at h
      | none, i + 1 =>
          simp only [reattachLibs]
          simpa using ih i lib (by simpa using h) hic
      | some l, 0 =>
          have : l = lib := by simpa using h
          subst this
          simp [reattachLibs, hic]
      | some l, i + 1 =>
          simp only [reattachLibs]
          by_cases hc : l.initCycle <;>
            simp only [hc, if_true, if_false, Bool.false_eq_true] <;>
            simpa using ih i lib (by simpa using h) hic

/-- A mid-init-cycle library record appears, rewritten, in the list of
records collected for the new chain. -/
theorem reattachLibs_collects (u : EC) :
    ∀ (libs : List (Option EC)) (i : Nat) (lib : EC),
      libs[i]? = some (some lib) → lib.initCycle = true →
      rewriteLib u lib ∈ (reattachLibs u libs).2 := by
  intro libs
  induction libs with
  | nil => intro i lib h; simp at h
  | cons s rest ih =>
      intro i lib h hic
      match s, i with
      | none, 0 => simp at h
      | none, i + 1 =>
          simp only [reattachLibs]
          exact ih i lib (by simpa using h) hic
      | some l, 0 =>
          have : l = lib := by simpa using h
          subst this
          simp [reattachLibs, hic]
      | some l, i + 1 =>
          have hmem := ih i lib (by simpa using h) hic
          simp only [reattachLibs]
          by_cases hc : l.initCycle <;>
            simp [hc, hmem]

/-! ### Claim theorems -/

/-- C10: for every registry, program name and uninit reason, the limbo scan
invoked with an unset (NULL) chart handle returns "no indicator found" (0)
without examining any chain: the result is the same as on an empty registry. -/
theorem FindIndicatorInLimbo_null_chart (masters : List EC) (name : String)
    (reason : UninitReason) (uiThreadId : Nat) :
    FindIndicatorInLimbo masters 0 name reason uiThreadId = 0 ∧
    FindIndicatorInLimbo masters 0 name reason uiThreadId =
      FindIndicatorInLimbo [] 0 name reason uiThreadId := by
  constructor <;> simp [FindIndicatorInLimbo]

/-- C5: for every record whose super-context reference is set, the effective
testing, visualMode, optimization, logging and customLogFile values equal the
super-context's, regardless of the raw host-reported flags. -/
theorem effectiveFlags_inherit_superContext (env : WinEnv) (ec : EC)
    (sc : SuperContext) (h : ec.superContext = some sc)
    (rawTesting rawVisualMode rawOptimization : Bool) :
    ProgramIsTesting env ec rawTesting = .ok sc.testing ∧
    ProgramIsVisualMode ec rawVisualMode = sc.visualMode ∧
    ProgramIsOptimization ec rawOptimization = sc.optimization ∧
    ProgramIsLogging ec = sc.logging ∧
    ProgramCustomLogFile ec = sc.customLogFile := by
  refine ⟨?_, ?_, ?_, ?_, ?_⟩ <;>
    simp [ProgramIsTesting, ProgramIsVisualMode, ProgramIsOptimization,
          ProgramIsLogging, ProgramCustomLogFile, h]

/-- Witness for C5 at a concrete nested record. -/
theorem effectiveFlags_inherit_superContext_witness :
    ProgramIsTesting ⟨fun _ => ""⟩
        { defaultEC with superContext := some ⟨true, false, true, false, some "c.log", 7⟩ }
        false = .ok true ∧
    ProgramIsVisualMode
        { defaultEC with superContext := some ⟨true, false, true, false, some "c.log", 7⟩ }
        true = false ∧
    ProgramIsOptimization
        { defaultEC with superContext := some ⟨true, false, true, false, some "c.log", 7⟩ }
        false = true ∧
    ProgramIsLogging
        { defaultEC with superContext := some ⟨true, false, true, false, some "c.log", 7⟩ } = false ∧
    ProgramCustomLogFile
        { defaultEC with superContext := some ⟨true, false, true, false, some "c.log", 7⟩ } =
      some "c.log" :=
  effectiveFlags_inherit_superContext ⟨fun _ => ""⟩
    { defaultEC with superContext := some ⟨true, false, true, false, some "c.log", 7⟩ }
    ⟨true, false, true, false, some "c.log", 7⟩ rfl false true false

/-- C8 counterexample: for an Indicator with uninit cause = recompile and no
super-context the resolver does not fail IllegalState (as the claim states);
it resolves to Recompiled.  The nested case is the one that fails, and no
build gate is involved. -/
theorem InitReason_indicator_recompile_cex :
    InitReason_indicator 0 none "MyInd" .recompile "EURUSD" false false 70000 0 700 true [] 5 =
      .ok (.recompile, 0) ∧
    InitReason_indicator 0 none "MyInd" .recompile "EURUSD" false false 70000 0 700 true [] 5 ≠
      .error .illegalState := by
  refine ⟨rfl, ?_⟩
  intro h
  exact Except.noConfusion h

/-- C8 (amended): for an Indicator with uninit cause = recompile the resolver
is not build-gated and the cause is legal only in the non-nested case: with a
super-context it fails IllegalState, without one it resolves to Recompiled. -/
theorem InitReason_indicator_recompile (ecProgramId : Nat)
    (sec : Option SuperContext) (programName symbol : String)
    (isTesting isVisualMode : Bool) (hChart : Nat) (droppedOnChart : Int)
    (build : Nat) (isUIThread : Bool) (masters : List EC) (uiThreadId : Nat) :
    (sec.isSome = true →
      InitReason_indicator ecProgramId sec programName .recompile symbol isTesting
        isVisualMode hChart droppedOnChart build isUIThread masters uiThreadId =
        .error .illegalState) ∧
    (sec = none →
      InitReason_indicator ecProgramId sec programName .recompile symbol isTesting
        isVisualMode hChart droppedOnChart build isUIThread masters uiThreadId =
        .ok (.recompile, 0)) := by
  constructor <;> intro h <;> simp [InitReason_indicator, h]

/-- Witness for the amended C8 at concrete nested and non-nested inputs. -/
theorem InitReason_indicator_recompile_witness :
    InitReason_indicator 3 (some ⟨false, false, false, false, none, 9⟩) "I" .recompile
      "EURUSD" true true 70000 1 600 false [] 5 = .error .illegalState ∧
    InitReason_indicator 3 none "I" .recompile
      "EURUSD" true true 70000 1 600 false [] 5 = .ok (.recompile, 0) :=
  ⟨(InitReason_indicator_recompile 3 (some ⟨false, false, false, false, none, 9⟩) "I"
      "EURUSD" true true 70000 1 600 false [] 5).1 rfl,
   (InitReason_indicator_recompile 3 none "I"
      "EURUSD" true true 70000 1 600 false [] 5).2 rfl⟩

/-- C9: a tracker call with program id 0 by a thread already present leaves
the thread's stored last-program value and lastUIThreadProgram unchanged and
returns the thread's index; an unknown thread is appended with stored value 0;
a negative (as int) program id fails with ERR_INVALID_PARAMETER without
modifying the maps. -/
theorem StoreThreadAndProgram_zero (s : ThreadMaps) (currentThread : Nat)
    (isUIThread : Bool) :
    (∀ i, s.threads.findIdx? (· == currentThread) = some i →
        StoreThreadAndProgram 0 currentThread isUIThread s = (.ok i, s)) ∧
    (s.threads.findIdx? (· == currentThread) = none →
        StoreThreadAndProgram 0 currentThread isUIThread s =
          (.ok s.threads.length,
           ⟨s.threads ++ [currentThread], s.threadsPrograms ++ [0],
            s.lastUIThreadProgram⟩)) ∧
    (∀ programId : Nat, toInt32 programId < 0 →
        StoreThreadAndProgram programId currentThread isUIThread s =
          (.error .invalidParameter, s)) := by
  have h0 : ¬ toInt32 0 < 0 := by decide
  refine ⟨?_, ?_, ?_⟩
  · intro i hi
    simp [StoreThreadAndProgram, h0, hi]
  · intro hn
    simp [StoreThreadAndProgram, h0, hn]
  · intro programId hneg
    simp [StoreThreadAndProgram, hneg]

/-- Witness for C9: known thread with id 0, unknown thread with id 0, and a
program id that is negative as a 32-bit int. -/
theorem StoreThreadAndProgram_zero_witness :
    StoreThreadAndProgram 0 9 false ⟨[9], [4], 3⟩ = (.ok 0, ⟨[9], [4], 3⟩) ∧
    StoreThreadAndProgram 0 8 false ⟨[9], [4], 3⟩ =
      (.ok 1, ⟨[9, 8], [4, 0], 3⟩) ∧
    StoreThreadAndProgram 2147483648 9 false ⟨[9], [4], 3⟩ =
      (.error .invalidParameter, ⟨[9], [4], 3⟩) :=
  ⟨(StoreThreadAndProgram_zero ⟨[9], [4], 3⟩ 9 false).1 0 rfl,
   (StoreThreadAndProgram_zero ⟨[9], [4], 3⟩ 8 false).2.1 rfl,
   (StoreThreadAndProgram_zero ⟨[9], [4], 3⟩ 9 false).2.2 2147483648 (by decide)⟩

/-- C1: for an Expert main-module record released via LeaveContext (valid
pointer and id, rootFunction = Deinit, record identical to the chain's
slot 1), the root function is cleared and slot 1 remains non-empty exactly
when the uninit reason is chart-change, parameter-change or account-change;
for every other reason (in particular template-load) it becomes empty. -/
theorem LeaveContext_expert_release (ec : EC) (ecPtr : Nat) (slot1 : Option Nat)
    (hp : minValidPointer ≤ ecPtr)
    (hid : 1 ≤ toInt32 ec.programId)
    (hr : ec.rootFunction = some .deinit)
    (hm : ec.moduleType = .expert)
    (hs : slot1 = some ecPtr) :
    LeaveContext ec ecPtr slot1 =
      .ok ⟨none,
           if ec.uninitReason = .chartChange ∨ ec.uninitReason = .parameters ∨
              ec.uninitReason = .account then some ecPtr else none,
           true⟩ ∧
    ((if ec.uninitReason = .chartChange ∨ ec.uninitReason = .parameters ∨
         ec.uninitReason = .account then (some ecPtr : Option Nat) else none) ≠ none ↔
      (ec.uninitReason = .chartChange ∨ ec.uninitReason = .parameters ∨
       ec.uninitReason = .account)) := by
  have hnp : ¬ ecPtr < minValidPointer := Nat.not_lt.mpr hp
  have hni : ¬ toInt32 ec.programId < 1 := by omega
  by_cases h : ec.uninitReason = .chartChange ∨ ec.uninitReason = .parameters ∨
      ec.uninitReason = .account
  · constructor
    · rcases h with h | h | h <;>
        simp [LeaveContext, hnp, hni, hr, hm, hs, h]
    · simp [h]
  · push_neg at h
    constructor
    · simp [LeaveContext, hnp, hni, hr, hm, hs, h.1, h.2.1, h.2.2]
    · simp [h.1, h.2.1, h.2.2]

/-- Witness for C1: a concrete Expert record released once with uninit cause
chart-change (slot 1 stays occupied) and once with template-load (slot 1 is
cleared). -/
theorem LeaveContext_expert_release_witness :
    LeaveContext
      { defaultEC with programId := 1, moduleType := .expert,
                       rootFunction := some .deinit, uninitReason := .chartChange }
      65536 (some 65536) = .ok ⟨none, some 65536, true⟩ ∧
    LeaveContext
      { defaultEC with programId := 1, moduleType := .expert,
                       rootFunction := some .deinit, uninitReason := .template }
      65536 (some 65536) = .ok ⟨none, none, true⟩ :=
  ⟨(LeaveContext_expert_release
      { defaultEC with programId := 1, moduleType := .expert,
                       rootFunction := some .deinit, uninitReason := .chartChange }
      65536 (some 65536) (by decide) (by decide) rfl rfl rfl).1,
   (LeaveContext_expert_release
      { defaultEC with programId := 1, moduleType := .expert,
                       rootFunction := some .deinit, uninitReason := .template }
      65536 (some 65536) (by decide) (by decide) rfl rfl rfl).1⟩

/-- C4: LeaveContext fails InvalidParameter when the record's program id is
below 1 (as signed int) or its root function is not Deinit; for an Indicator
or Script record it fails IllegalState when the record is not the chain's
current slot 1, and otherwise clears the root function and empties slot 1. -/
theorem LeaveContext_validation (ec : EC) (ecPtr : Nat) (slot1 : Option Nat)
    (hp : minValidPointer ≤ ecPtr) :
    ((toInt32 ec.programId < 1 ∨ ec.rootFunction ≠ some .deinit) →
        LeaveContext ec ecPtr slot1 = .error .invalidParameter) ∧
    (1 ≤ toInt32 ec.programId → ec.rootFunction = some .deinit →
      (ec.moduleType = .indicator ∨ ec.moduleType = .script) →
      ((slot1 ≠ some ecPtr → LeaveContext ec ecPtr slot1 = .error .illegalState) ∧
       (slot1 = some ecPtr → LeaveContext ec ecPtr slot1 = .ok ⟨none, none, true⟩))) := by
  have hnp : ¬ ecPtr < minValidPointer := Nat.not_lt.mpr hp
  constructor
  · rintro (h | h)
    · simp [LeaveContext, hnp, h]
    · by_cases hi : toInt32 ec.programId < 1 <;> simp [LeaveContext, hnp, hi, h]
  · intro hid hr hmod
    have hni : ¬ toInt32 ec.programId < 1 := by omega
    constructor
    · intro hne
      rcases hmod with hm | hm <;> simp [LeaveContext, hnp, hni, hr, hm, hne]
    · intro heq
      rcases hmod with hm | hm <;> simp [LeaveContext, hnp, hni, hr, hm, heq]

/-- Witness for C4: a record with id 0, a Deinit Indicator record that is not
the stored slot 1, and one that is. -/
theorem LeaveContext_validation_witness :
    LeaveContext { defaultEC with programId := 0, rootFunction := some .deinit }
      65536 none = .error .invalidParameter ∧
    LeaveContext { defaultEC with programId := 1, moduleType := .indicator,
                                  rootFunction := some .deinit }
      65536 (some 70000) = .error .illegalState ∧
    LeaveContext { defaultEC with programId := 1, moduleType := .indicator,
                                  rootFunction := some .deinit }
      65536 (some 65536) = .ok ⟨none, none, true⟩ :=
  ⟨(LeaveContext_validation
      { defaultEC with programId := 0, rootFunction := some .deinit }
      65536 none (by decide)).1 (Or.inl (by decide)),
   ((LeaveContext_validation
      { defaultEC with programId := 1, moduleType := .indicator,
                       rootFunction := some .deinit }
      65536 (some 70000) (by decide)).2 (by decide) rfl (Or.inl rfl)).1 (by decide),
   ((LeaveContext_validation
      { defaultEC with programId := 1, moduleType := .indicator,
                       rootFunction := some .deinit }
      65536 (some 65536) (by decide)).2 (by decide) rfl (Or.inl rfl)).2 rfl⟩

/-- C2: chain creation returns the registry size before the push as the new
program id, which is the index of the new chain, is stored in both pushed
records, never equals 0 (index 0 is the sentinel), leaves existing chains in
place, and over any sequence of creations the assigned ids are strictly
increasing and never reused. -/
theorem createChain_ids (chains : List ContextChain) (ec : EC) (ecs : List EC)
    (h : 1 ≤ chains.length) :
    (createChain chains ec).2 = chains.length ∧
    (createChain chains ec).2 ≠ 0 ∧
    (createChain chains ec).1.length = chains.length + 1 ∧
    (createChain chains ec).1.getD (createChain chains ec).2 [] =
      [some { ec with programId := chains.length },
       some { ec with programId := chains.length }] ∧
    (∀ i, i < chains.length →
      (createChain chains ec).1.getD i [] = chains.getD i []) ∧
    (runCreates chains ecs).2 = List.range' chains.length ecs.length ∧
    List.Pairwise (· < ·) (runCreates chains ecs).2 ∧
    0 ∉ (runCreates chains ecs).2 := by
  refine ⟨rfl, by simp only [createChain]; omega, by simp [createChain], ?_, ?_,
          runCreates_snd ecs chains, ?_, ?_⟩
  · simp [createChain, List.getD]
  · intro i hi
    simp [createChain, List.getD, List.getElem?_append, hi]
  · rw [runCreates_snd]
    exact pairwise_lt_range chains.length ecs.length
  · rw [runCreates_snd]
    intro hmem
    have := List.mem_range'_1.mp hmem
    omega

/-- Witness for C2: a registry holding only the sentinel chain; two creations
assign ids 1 and 2. -/
theorem createChain_ids_witness :
    (createChain [[]] defaultEC).2 = 1 ∧
    (runCreates [[]] [defaultEC, defaultEC]).2 = [1, 2] ∧
    0 ∉ (runCreates [[]] [defaultEC, defaultEC]).2 :=
  ⟨(createChain_ids [[]] defaultEC [defaultEC, defaultEC] (by decide)).1,
   (createChain_ids [[]] defaultEC [defaultEC, defaultEC] (by decide)).2.2.2.2.2.1,
   (createChain_ids [[]] defaultEC [defaultEC, defaultEC] (by decide)).2.2.2.2.2.2.2⟩

/-- C3: with a set chart handle the limbo scan returns the program id of the
first master record in chain-registration order that is on the UI thread,
has the same chart handle, is an Indicator with the same program name and the
same uninit reason, and has no root function; with two matches the
earliest-registered wins, and with no match 0 (no id) is returned. -/
theorem FindIndicatorInLimbo_first_match (masters : List EC) (hChart : Nat)
    (name : String) (reason : UninitReason) (uiThreadId : Nat)
    (hc : hChart ≠ 0) :
    (∀ i, 1 ≤ i → i < masters.length →
      limboMatch (masters.getD i defaultEC) hChart name reason uiThreadId = true →
      (∀ j, 1 ≤ j → j < i →
        limboMatch (masters.getD j defaultEC) hChart name reason uiThreadId = false) →
      FindIndicatorInLimbo masters hChart name reason uiThreadId =
        (masters.getD i defaultEC).programId) ∧
    ((∀ i, 1 ≤ i → i < masters.length →
        limboMatch (masters.getD i defaultEC) hChart name reason uiThreadId = false) →
      FindIndicatorInLimbo masters hChart name reason uiThreadId = 0) := by
  have hdropD : ∀ k : Nat,
      (masters.drop 1).getD k defaultEC = masters.getD (k + 1) defaultEC := by
    intro k
    simp [List.getD, List.getElem?_drop, Nat.add_comm]
  have hdropLen : (masters.drop 1).length = masters.length - 1 := by simp
  constructor
  · intro i h1 hi hm hb
    have hk : i - 1 < (masters.drop 1).length := by omega
    have hm2 : limboMatch ((masters.drop 1).getD (i - 1) defaultEC)
        hChart name reason uiThreadId = true := by
      rw [hdropD]
      have hii : i - 1 + 1 = i := by omega
      rw [hii]
      exact hm
    have hb2 : ∀ j, j < i - 1 →
        limboMatch ((masters.drop 1).getD j defaultEC) hChart name reason uiThreadId = false := by
      intro j hj
      rw [hdropD]
      exact hb (j + 1) (by omega) (by omega)
    have hscan := limboScan_first hChart name reason uiThreadId (masters.drop 1)
      (i - 1) hk hm2 hb2
    have heq : (masters.drop 1).getD (i - 1) defaultEC = masters.getD i defaultEC := by
      rw [hdropD]
      congr 1
      omega
    rw [heq] at hscan
    simpa [FindIndicatorInLimbo, hc] using hscan
  · intro hnone
    have hscan := limboScan_nomatch hChart name reason uiThreadId (masters.drop 1)
      (fun j hj => by
        rw [hdropD]
        exact hnone (j + 1) (by omega) (by omega))
    simpa [FindIndicatorInLimbo, hc] using hscan

/-- Witness for C3: a registry whose chain 1 master matches the scan
predicate; the scan returns id 1. -/
theorem FindIndicatorInLimbo_first_match_witness :
    FindIndicatorInLimbo
      [defaultEC,
       { defaultEC with programId := 1, threadId := 5, hChart := 70000,
                        programName := "Ind", uninitReason := .chartChange }]
      70000 "Ind" .chartChange 5 = 1 :=
  (FindIndicatorInLimbo_first_match
      [defaultEC,
       { defaultEC with programId := 1, threadId := 5, hChart := 70000,
                        programName := "Ind", uninitReason := .chartChange }]
      70000 "Ind" .chartChange 5 (by decide)).1 1 (by decide) (by decide)
    (by decide) (fun j hj1 hj2 => absurd hj2 (by omega))

/-- C6: for an Indicator with uninit cause = parameter-change the resolver
fails IllegalState whenever a super-context is present; without one and with
no program id assigned, an empty limbo scan resolves to UserAdded and a
successful scan resolves to ParametersChanged with the found id reported as
the original program id. -/
theorem InitReason_indicator_parameters (ecProgramId : Nat)
    (sec : Option SuperContext) (programName symbol : String)
    (isTesting isVisualMode : Bool) (hChart : Nat) (droppedOnChart : Int)
    (build : Nat) (isUIThread : Bool) (masters : List EC) (uiThreadId : Nat) :
    (sec.isSome = true →
      InitReason_indicator ecProgramId sec programName .parameters symbol isTesting
        isVisualMode hChart droppedOnChart build isUIThread masters uiThreadId =
        .error .illegalState) ∧
    (sec = none → ecProgramId = 0 →
      ((FindIndicatorInLimbo masters hChart programName .parameters uiThreadId = 0 →
          InitReason_indicator ecProgramId sec programName .parameters symbol isTesting
            isVisualMode hChart droppedOnChart build isUIThread masters uiThreadId =
            .ok (.user, 0)) ∧
       (∀ pid,
          FindIndicatorInLimbo masters hChart programName .parameters uiThreadId = pid →
          pid ≠ 0 →
          InitReason_indicator ecProgramId sec programName .parameters symbol isTesting
            isVisualMode hChart droppedOnChart build isUIThread masters uiThreadId =
            .ok (.parameters, pid)))) := by
  refine ⟨?_, ?_⟩
  · intro h
    simp [InitReason_indicator, h]
  · rintro rfl rfl
    constructor
    · intro h0
      simp [InitReason_indicator, h0]
    · intro pid hpid hne
      simp [InitReason_indicator, hpid, hne]

/-- Witness for C6: the nested case fails, the no-match case (NULL chart, so
the scan finds nothing) resolves to UserAdded, and a registry whose chain 1
master is in limbo with cause parameter-change resolves to ParametersChanged
with original id 1. -/
theorem InitReason_indicator_parameters_witness :
    InitReason_indicator 0 (some ⟨false, false, false, false, none, 9⟩) "Ind" .parameters
      "EURUSD" false false 70000 0 700 true [] 5 = .error .illegalState ∧
    InitReason_indicator 0 none "Ind" .parameters
      "EURUSD" false false 0 0 700 true [] 5 = .ok (.user, 0) ∧
    InitReason_indicator 0 none "Ind" .parameters "EURUSD" false false 70000 0 700 true
      [defaultEC,
       { defaultEC with programId := 1, threadId := 5, hChart := 70000,
                        programName := "Ind", uninitReason := .parameters }] 5 =
      .ok (.parameters, 1) :=
  ⟨(InitReason_indicator_parameters 0 (some ⟨false, false, false, false, none, 9⟩) "Ind"
      "EURUSD" false false 70000 0 700 true [] 5).1 rfl,
   ((InitReason_indicator_parameters 0 none "Ind"
      "EURUSD" false false 0 0 700 true [] 5).2 rfl rfl).1 rfl,
   ((InitReason_indicator_parameters 0 none "Ind"
      "EURUSD" false false 70000 0 700 true
      [defaultEC,
       { defaultEC with programId := 1, threadId := 5, hChart := 70000,
                        programName := "Ind", uninitReason := .parameters }] 5).2 rfl rfl).2
     1 rfl (by decide)⟩

/-- C7: for a brand-new Expert under test whose thread's previous program is
known and whose previous chain's master is mid-init-cycle, every non-empty
mid-init-cycle library slot (index 2 and up) of the previous chain is cleared
and its record, rewritten to the new instance's id, cleared init-cycle
marker, derived flags and display handles, is appended to the new chain; a
NULL slot is skipped and the operation still succeeds; the old master's
init-cycle marker is cleared afterward. -/
theorem syncInit_reattach (ec : EC) (currentChain : ContextChain)
    (lastMaster : EC) (tail : ContextChain) (lastProgramId : Nat)
    (hlp : lastProgramId ≠ 0) (hic : lastMaster.initCycle = true) :
    (syncInit_step3 true true lastProgramId ec currentChain
        (some lastMaster :: tail)).2.2 = true ∧
    (syncInit_step3 true true lastProgramId ec currentChain
        (some lastMaster :: tail)).2.1[0]? =
      some (some { lastMaster with initCycle := false }) ∧
    (∀ i lib, (tail.drop 1)[i]? = some (some lib) → lib.initCycle = true →
      (syncInit_step3 true true lastProgramId ec currentChain
          (some lastMaster :: tail)).2.1[i + 2]? = some none ∧
      some (rewriteLib ec lib) ∈
        (syncInit_step3 true true lastProgramId ec currentChain
          (some lastMaster :: tail)).1) ∧
    (∀ i, (tail.drop 1)[i]? = some none →
      (syncInit_step3 true true lastProgramId ec currentChain
          (some lastMaster :: tail)).2.1[i + 2]? = some none) ∧
    (∀ lib : EC,
      (rewriteLib ec lib).programId = ec.programId ∧
      (rewriteLib ec lib).initCycle = false ∧
      (rewriteLib ec lib).visualMode = ec.visualMode ∧
      (rewriteLib ec lib).optimization = ec.optimization ∧
      (rewriteLib ec lib).logging = ec.logging ∧
      (rewriteLib ec lib).customLogFile = ec.customLogFile ∧
      (rewriteLib ec lib).hChart = ec.hChart ∧
      (rewriteLib ec lib).hChartWindow = ec.hChartWindow) := by
  have hstep : syncInit_step3 true true lastProgramId ec currentChain
      (some lastMaster :: tail) =
      (currentChain ++ ((reattachLibs ec (tail.drop 1)).2.map some),
       some { lastMaster with initCycle := false } ::
         (tail.take 1 ++ (reattachLibs ec (tail.drop 1)).1),
       true) := by
    simp [syncInit_step3, hlp, hic]
  have hlen1 : ∀ (i : Nat) (x : Option EC), (tail.drop 1)[i]? = some x →
      (tail.take 1).length = 1 := by
    intro i x hx
    have hi : i < (tail.drop 1).length := by
      by_contra hge
      rw [List.getElem?_eq_none (Nat.le_of_not_lt hge)] at hx
      exact Option.noConfusion hx
    simp only [List.length_drop] at hi
    simp only [List.length_take]
    omega
  have hidx : ∀ (i : Nat) (x : Option EC), (tail.drop 1)[i]? = some x →
      (some { lastMaster with initCycle := false } ::
        (tail.take 1 ++ (reattachLibs ec (tail.drop 1)).1) :
        ContextChain)[i + 2]? = (reattachLibs ec (tail.drop 1)).1[i]? := by
    intro i x hx
    have h1 := hlen1 i x hx
    rw [List.getElem?_cons_succ, List.getElem?_append_right (by omega), h1]
    simp
  refine ⟨by simp [hstep], by simp [hstep], ?_, ?_,
          fun lib => ⟨rfl, rfl, rfl, rfl, rfl, rfl, rfl, rfl⟩⟩
  · intro i lib hx hc
    constructor
    · rw [hstep]
      rw [hidx i (some lib) hx]
      exact reattachLibs_clear_slot ec (tail.drop 1) i lib hx hc
    · rw [hstep]
      exact List.mem_append_right currentChain
        (List.mem_map_of_mem some (reattachLibs_collects ec (tail.drop 1) i lib hx hc))
  · intro i hx
    rw [hstep]
    rw [hidx i none hx]
    exact reattachLibs_none_slot ec (tail.drop 1) i hx

/-- Witness for C7: a previous chain with a NULL slot 1 and one mid-init-cycle
library; the library slot is cleared, the rewritten record is appended, and
the old master's marker is cleared. -/
theorem syncInit_reattach_witness :
    (syncInit_step3 true true 1
      { defaultEC with programId := 2, visualMode := true, optimization := true,
                       logging := true, customLogFile := some "c.log",
                       hChart := 70000, hChartWindow := 70001 }
      [] [some { defaultEC with programId := 1, initCycle := true }, none,
          some { defaultEC with moduleType := .library, initCycle := true }]).2.2 = true ∧
    (syncInit_step3 true true 1
      { defaultEC with programId := 2, visualMode := true, optimization := true,
                       logging := true, customLogFile := some "c.log",
                       hChart := 70000, hChartWindow := 70001 }
      [] [some { defaultEC with programId := 1, initCycle := true }, none,
          some { defaultEC with moduleType := .library, initCycle := true }]).2.1[0]? =
      some (some { defaultEC with programId := 1, initCycle := false }) ∧
    (syncInit_step3 true true 1
      { defaultEC with programId := 2, visualMode := true, optimization := true,
                       logging := true, customLogFile := some "c.log",
                       hChart := 70000, hChartWindow := 70001 }
      [] [some { defaultEC with programId := 1, initCycle := true }, none,
          some { defaultEC with moduleType := .library, initCycle := true }]).2.1[2]? =
      some none ∧
    some (rewriteLib
      { defaultEC with programId := 2, visualMode := true, optimization := true,
                       logging := true, customLogFile := some "c.log",
                       hChart := 70000, hChartWindow := 70001 }
      { defaultEC with moduleType := .library, initCycle := true }) ∈
    (syncInit_step3 true true 1
      { defaultEC with programId := 2, visualMode := true, optimization := true,
                       logging := true, customLogFile := some "c.log",
                       hChart := 70000, hChartWindow := 70001 }
      [] [some { defaultEC with programId := 1, initCycle := true }, none,
          some { defaultEC with moduleType := .library, initCycle := true }]).1 :=
  ⟨(syncInit_reattach
      { defaultEC with programId := 2, visualMode := true, optimization := true,
                       logging := true, customLogFile := some "c.log",
                       hChart := 70000, hChartWindow := 70001 }
      [] { defaultEC with programId := 1, initCycle := true }
      [none, some { defaultEC with moduleType := .library, initCycle := true }]
      1 (by decide) rfl).1,
   (syncInit_reattach
      { defaultEC with programId := 2, visualMode := true, optimization := true,
                       logging := true, customLogFile := some "c.log",
                       hChart := 70000, hChartWindow := 70001 }
      [] { defaultEC with programId := 1, initCycle := true }
      [none, some { defaultEC with moduleType := .library, initCycle := true }]
      1 (by decide) rfl).2.1,
   ((syncInit_reattach
      { defaultEC with programId := 2, visualMode := true, optimization := true,
                       logging := true, customLogFile := some "c.log",
                       hChart := 70000, hChartWindow := 70001 }
      [] { defaultEC with programId := 1, initCycle := true }
      [none, some { defaultEC with moduleType := .library, initCycle := true }]
      1 (by decide) rfl).2.2.1 0
      { defaultEC with moduleType := .library, initCycle := true } rfl rfl).1,
   ((syncInit_reattach
      { defaultEC with programId := 2, visualMode := true, optimization := true,
                       logging := true, customLogFile := some "c.log",
                       hChart := 70000, hChartWindow := 70001 }
      [] { defaultEC with programId := 1, initCycle := true }
      [none, some { defaultEC with moduleType := .library, initCycle := true }]
      1 (by decide) rfl).2.2.1 0
      { defaultEC with moduleType := .library, initCycle := true } rfl rfl).2⟩
